import Mathlib

/-!
Verification development for the concurrency/parallelism/asyncio example
repository.  The recurring core is the fetch-extract-write loop
`get_and_scrape_pages` (sync.py, multiprocessing_only.py, asyncio_only.py,
asyncio_with_multiprocessing.py), the process-split partition arithmetic in
the two multiprocessing `main` functions, the validated greeting coroutine
`say_hello` (pytest_asyncio/hello_asyncio.py), and the thread-pool driver
(parallelism/threads.py).

Modelling conventions:
* an HTTP response is its status code together with the title string that
  the external HTML parser extracts from its body (the HTTP client and the
  parser are collaborators outside the repository);
* the output file is a `FileState`: the accumulated text `content`, plus an
  instrumentation list `values` recording each extracted value passed to a
  `f.write(title + "\t")` call, in order;
* a raised exception is modelled by returning `some status`
  (for the HTTP-status checks) together with the file state at the moment
  of the raise; `none` means the call returned normally.
-/

namespace ConcPar

/-- One HTTP response as seen by the scrape loop: the status code and the
text of the `h1` element that `BeautifulSoup(...).find("h1").text`
extracts from the body. -/
structure Response where
  status : Nat
  title : String
deriving DecidableEq, Repr

/-- The shared output file opened with `open(output_file, "a+")`:
`content` is the text of the file, `values` logs each extracted value
written by `f.write(title + "\t")` (instrumentation of the writes). -/
structure FileState where
  content : String
  values : List String
deriving DecidableEq, Repr

/-- Embedding of `get_and_scrape_pages` from
`asyncio_and_multiprocessing/sync.py` (the identical loop appears in
`multiprocessing_only.py`): for each of the responses delivered in
sequence, if `response.status > 399` an exception carrying the status is
raised (`raise Exception(f"Received a ... instead of 200.")`), otherwise
the extracted title followed by a tab is appended; after the loop a single
`"\n"` is appended.  The list argument holds the responses the HTTP
collaborator returns for the `num_pages` requests, so its length is
`num_pages`. -/
def get_and_scrape_pages : List Response → FileState → FileState × Option Nat
  | [], s => ({ s with content := s.content ++ "\n" }, none)
  | r :: rest, s =>
    if 399 < r.status then (s, some r.status)
    else get_and_scrape_pages rest
      { content := s.content ++ r.title ++ "\t", values := s.values ++ [r.title] }

/-- Embedding of `get_and_scrape_pages` from
`asyncio_and_multiprocessing/asyncio_only.py` (the same coroutine body is
in `asyncio_with_multiprocessing.py`).  The coroutine awaits each request
inside the same `for` loop, one after the other, so its visible effect
sequence is the sequential loop's; `response.raise_for_status()` on
`status > 399` is modelled, like the synchronous `raise`, by returning the
offending status. -/
def asyncio_get_and_scrape_pages : List Response → FileState → FileState × Option Nat
  | [], s => ({ s with content := s.content ++ "\n" }, none)
  | r :: rest, s =>
    if 399 < r.status then (s, some r.status)
    else asyncio_get_and_scrape_pages rest
      { content := s.content ++ r.title ++ "\t", values := s.values ++ [r.title] }

/-- The text appended for a list of successfully scraped responses:
each title followed by a tab, in order. -/
def joinTitles : List Response → String
  | [] => ""
  | r :: rest => r.title ++ "\t" ++ joinTitles rest

/-- Number of newline characters in a string. -/
def countNewlines (t : String) : Nat := t.data.count '\n'

/-! ### Process-split partition arithmetic

`multiprocessing_only.py` (`main`, lines 41-42) and
`asyncio_with_multiprocessing.py` (`main`, lines 51-52) compute

    PAGES_PER_CORE = floor(NUM_PAGES / NUM_CORES)
    PAGES_FOR_FINAL_CORE = PAGES_PER_CORE + NUM_PAGES % PAGES_PER_CORE

before any work is submitted to the process pool.  Note the modulus is
`PAGES_PER_CORE` (the per-core quotient), not `NUM_CORES`.  In Python,
`%` by zero raises `ZeroDivisionError`; that failure is modelled by
`none`. -/

/-- `PAGES_PER_CORE = floor(NUM_PAGES / NUM_CORES)`. -/
def PAGES_PER_CORE (NUM_PAGES NUM_CORES : Nat) : Nat := NUM_PAGES / NUM_CORES

/-- `PAGES_FOR_FINAL_CORE = PAGES_PER_CORE + NUM_PAGES % PAGES_PER_CORE`;
`none` models the `ZeroDivisionError` raised when `PAGES_PER_CORE` is 0. -/
def PAGES_FOR_FINAL_CORE (NUM_PAGES NUM_CORES : Nat) : Option Nat :=
  if PAGES_PER_CORE NUM_PAGES NUM_CORES = 0 then none
  else some (PAGES_PER_CORE NUM_PAGES NUM_CORES
              + NUM_PAGES % PAGES_PER_CORE NUM_PAGES NUM_CORES)

/-- The page counts handed to the pool by `main`: the submit loop gives
each of the first `NUM_CORES - 1` processes `PAGES_PER_CORE` pages and the
final submit gives the last process `PAGES_FOR_FINAL_CORE` pages; `none`
models `main` dying of `ZeroDivisionError` before any submission. -/
def coreAssignment (NUM_PAGES NUM_CORES : Nat) : Option (List Nat) :=
  match PAGES_FOR_FINAL_CORE NUM_PAGES NUM_CORES with
  | none => none
  | some last =>
    some (List.replicate (NUM_CORES - 1) (PAGES_PER_CORE NUM_PAGES NUM_CORES) ++ [last])

/-! ### The validated greeting coroutine (pytest_asyncio/hello_asyncio.py)

`say_hello(name)` checks `type(name) != str` first (raising `TypeError`),
then `name == ""` (raising `ValueError`); the surrounding
`try/except (TypeError, ValueError): raise` is a bare re-raise, so both
exceptions propagate unchanged.  Only after both checks does the coroutine
print, `await asyncio.sleep(2)`, and print the greeting. -/

/-- A Python value of one of the shapes that the repository's tests pass
to `say_hello`: a string, an integer (`19`), a set of strings
(`{"name", "Diane"}`) or a list (`[]`). -/
inductive PyValue where
  | pyStr (s : String)
  | pyInt (n : Int)
  | pySet (elems : List String)
  | pyList (elems : List String)
deriving DecidableEq, Repr

/-- Python's `type(name) == str`. -/
def isStr : PyValue → Bool
  | .pyStr _ => true
  | _ => false

/-- Python's `name == ""`: true exactly for the empty string (comparing a
non-string against `""` is `False` in Python). -/
def pyEqEmptyStr : PyValue → Bool
  | .pyStr s => s = ""
  | _ => false

/-- The string payload of a string value (only read after the type check
has passed). -/
def strVal : PyValue → String
  | .pyStr s => s
  | _ => ""

/-- The two exception kinds raised by `say_hello`:
`TypeError('"name" must be a string')` and
`ValueError('"name" cannot be empty')`. -/
inductive HelloError where
  | typeError (msg : String)
  | valueError (msg : String)
deriving DecidableEq, Repr

/-- Observable effects of the coroutine body after validation: the two
`print` calls and the `await asyncio.sleep(2)` between them. -/
inductive Effect where
  | printed (s : String)
  | slept (secs : Nat)
deriving DecidableEq, Repr

/-- Embedding of `say_hello`: the effect trace performed, and the
exception raised if any.  An error result carries the trace produced
before the raise — both raises happen before the first print/sleep, so
that trace is empty. -/
def say_hello (name : PyValue) : List Effect × Option HelloError :=
  if isStr name = false then
    ([], some (HelloError.typeError "\"name\" must be a string"))
  else if pyEqEmptyStr name then
    ([], some (HelloError.valueError "\"name\" cannot be empty"))
  else
    ([Effect.printed "Sleeping...", Effect.slept 2,
      Effect.printed ("Hello, " ++ strVal name ++ "!")], none)

/-! ### The thread-pool driver (parallelism/threads.py)

The script builds `pow_list = [i for i in range(1000000, 1000016)]`, then
inside `with concurrent.futures.ThreadPoolExecutor() as executor:` submits
`pow(i, i)` for each element.  The executor itself is Python-stdlib code,
not part of this repository; its pool sizing and join behaviour are
modelled from the spec below. -/

/-- `pow_list = [i for i in range(1000000, 1000016)]`. -/
def pow_list : List Nat := List.range' 1000000 16

/-- Modelled from the spec: the `concurrent.futures.ThreadPoolExecutor`
collaborator is not part of the repository sources; per the spec it is a
fixed-size pool of OS threads holding the units submitted to it. -/
structure ThreadPoolExecutor where
  max_workers : Nat
  pending : List (Nat × Nat)
deriving DecidableEq, Repr

/-- Modelled from the spec: when `ThreadPoolExecutor()` is constructed
with no argument, "the pool size defaults to the number of available
hardware threads". -/
def defaultMaxWorkers (hardwareThreads : Nat) : Nat := hardwareThreads

/-- `executor.submit(pow, i, i)`: queue one unit on the pool. -/
def submit (ex : ThreadPoolExecutor) (base exponent : Nat) : ThreadPoolExecutor :=
  { ex with pending := ex.pending ++ [(base, exponent)] }

/-- Modelled from the spec: leaving the `with` block waits for every
submitted unit to finish; each finished unit's result is `pow` of its
arguments.  Returns the results of all submitted units. -/
def shutdownWait (ex : ThreadPoolExecutor) : List Nat :=
  ex.pending.map (fun p => p.1 ^ p.2)

/-- The `__main__` block of `parallelism/threads.py`: construct the pool
with the default size, submit `pow(i, i)` for every `i` in `pow_list`,
and leave the `with` block (waiting for all units).  Returns the pool
size used and the finished units' results, available to the caller only
after the wait. -/
def threadsMain (hardwareThreads : Nat) : Nat × List Nat :=
  let ex0 : ThreadPoolExecutor := { max_workers := defaultMaxWorkers hardwareThreads, pending := [] }
  let ex1 := pow_list.foldl (fun ex i => submit ex i i) ex0
  (ex1.max_workers, shutdownWait ex1)

/-! ### Helper lemmas -/

/-- A run over responses that all pass the status check returns normally,
appending each title followed by a tab and then a single newline, and
logs exactly the titles, in order. -/
theorem scrape_ok (rs : List Response) (s : FileState) (h : ∀ r ∈ rs, r.status ≤ 399) :
    get_and_scrape_pages rs s =
      ({ content := s.content ++ (joinTitles rs ++ "\n"),
         values := s.values ++ rs.map Response.title }, none) := by
  induction rs generalizing s with
  | nil => simp [get_and_scrape_pages, joinTitles]
  | cons r rest ih =>
    have hr : ¬ 399 < r.status := Nat.not_lt.mpr (h r (List.mem_cons_self r rest))
    have hrest : ∀ x ∈ rest, x.status ≤ 399 := fun x hx => h x (List.mem_cons_of_mem r hx)
    simp only [get_and_scrape_pages, if_neg hr, ih _ hrest, joinTitles]
    simp [String.append_assoc, List.append_assoc]

/-- A run that reaches a response failing the status check raises with
that status there: the responses before it are written, the bad one and
everything after it are not. -/
theorem scrape_fail (pre : List Response) (bad : Response) (post : List Response)
    (s : FileState) (hpre : ∀ r ∈ pre, r.status ≤ 399) (hbad : 399 < bad.status) :
    get_and_scrape_pages (pre ++ bad :: post) s =
      ({ content := s.content ++ joinTitles pre,
         values := s.values ++ pre.map Response.title }, some bad.status) := by
  induction pre generalizing s with
  | nil => simp [get_and_scrape_pages, if_pos hbad, joinTitles]
  | cons r rest ih =>
    have hr : ¬ 399 < r.status := Nat.not_lt.mpr (hpre r (List.mem_cons_self r rest))
    have hrest : ∀ x ∈ rest, x.status ≤ 399 := fun x hx => hpre x (List.mem_cons_of_mem r hx)
    simp only [List.cons_append, get_and_scrape_pages, if_neg hr, joinTitles, List.append_eq]
    rw [ih _ hrest]
    simp [String.append_assoc, List.append_assoc]

/-- Newline counting distributes over string append. -/
theorem countNewlines_append (a b : String) :
    countNewlines (a ++ b) = countNewlines a + countNewlines b := by
  simp [countNewlines, String.data_append, List.count_append]

/-- The appended tab-separated text contains no newline when no extracted
title does. -/
theorem countNewlines_joinTitles (rs : List Response)
    (h : ∀ r ∈ rs, countNewlines r.title = 0) :
    countNewlines (joinTitles rs) = 0 := by
  induction rs with
  | nil => rfl
  | cons r rest ih =>
    have h1 : countNewlines r.title = 0 := h r (List.mem_cons_self r rest)
    have h2 : countNewlines (joinTitles rest) = 0 :=
      ih (fun x hx => h x (List.mem_cons_of_mem r hx))
    have h3 : countNewlines "\t" = 0 := rfl
    simp [joinTitles, countNewlines_append, h1, h2, h3]

/-- The submit loop queues one unit per element, in order, and leaves the
pool size unchanged. -/
theorem foldl_submit (l : List Nat) (ex : ThreadPoolExecutor) :
    l.foldl (fun e i => submit e i i) ex =
      { max_workers := ex.max_workers, pending := ex.pending ++ l.map (fun i => (i, i)) } := by
  induction l generalizing ex with
  | nil => simp
  | cons i rest ih =>
    rw [List.foldl_cons, ih]
    simp [submit, List.append_assoc]

/-- When the per-core quotient is nonzero, the final-core computation
returns normally with `PAGES_PER_CORE + NUM_PAGES % PAGES_PER_CORE`. -/
theorem PAGES_FOR_FINAL_CORE_of_pos (N C : Nat) (h : N / C ≠ 0) :
    PAGES_FOR_FINAL_CORE N C = some (N / C + N % (N / C)) := by
  unfold PAGES_FOR_FINAL_CORE PAGES_PER_CORE
  rw [if_neg h]

/-- The submit loop's page counts, given the final-core computation
returned normally. -/
theorem coreAssignment_eq (N C v : Nat) (h : PAGES_FOR_FINAL_CORE N C = some v) :
    coreAssignment N C =
      some (List.replicate (C - 1) (PAGES_PER_CORE N C) ++ [v]) := by
  unfold coreAssignment
  rw [h]

/-- C1 (amended): each of the first `C − 1` processes is assigned
`floor(N/C)` pages; the last process is assigned
`floor(N/C) + (N mod floor(N/C))`, which equals the claimed
`N − (C−1)·floor(N/C)` exactly when `N mod C < floor(N/C)`.  Under that
proviso — which holds for `N = 100`, `C = 8`, giving shares
12, 12, 12, 12, 12, 12, 12, 16 — the partition is as claimed. -/
theorem partition_rule_amended (N C : Nat) (h : N % C < N / C) :
    coreAssignment N C =
      some (List.replicate (C - 1) (N / C) ++ [N - (C - 1) * (N / C)]) := by
  have hq : 0 < N / C := Nat.lt_of_le_of_lt (Nat.zero_le _) h
  have hC : 0 < C := by
    rcases Nat.eq_zero_or_pos C with hc | hc
    · rw [hc, Nat.div_zero] at hq
      exact absurd hq (by omega)
    · exact hc
  have hN : C * (N / C) + N % C = N := Nat.div_add_mod N C
  have hmod : N % (N / C) = N % C := by
    have h1 : N % (N / C) = (N / C * C + N % C) % (N / C) := by
      rw [Nat.mul_comm (N / C) C, hN]
    rw [h1, Nat.mul_add_mod, Nat.mod_eq_of_lt h]
  have hlast : N / C + N % C = N - (C - 1) * (N / C) := by
    have h2 : N / C ≤ C * (N / C) := Nat.le_mul_of_pos_left _ hC
    have h3 : (C - 1) * (N / C) = C * (N / C) - N / C := by
      rw [Nat.sub_mul, Nat.one_mul]
    rw [h3]
    revert hN h2
    generalize C * (N / C) = A
    intro hN h2
    omega
  rw [coreAssignment_eq N C _ (PAGES_FOR_FINAL_CORE_of_pos N C hq.ne'), hmod, hlast]
  simp only [PAGES_PER_CORE]

/-- C1 witness: instantiating the amended partition rule at `N = 100`,
`C = 8` yields the shares 12, 12, 12, 12, 12, 12, 12, 16 claimed by the
spec's worked example. -/
theorem partition_rule_amended_witness :
    100 % 8 < 100 / 8 ∧
    coreAssignment 100 8 =
      some (List.replicate (8 - 1) (100 / 8) ++ [100 - (8 - 1) * (100 / 8)]) ∧
    List.replicate (8 - 1) (100 / 8) ++ [100 - (8 - 1) * (100 / 8)] =
      [12, 12, 12, 12, 12, 12, 12, 16] :=
  ⟨by decide, partition_rule_amended 100 8 (by decide), by decide⟩

/-- C1 counterexample: for `N = 10`, `C = 4` the code assigns the final
process `floor(10/4) + (10 mod floor(10/4)) = 2` pages, not the claimed
`10 − 3·floor(10/4) = 4`; the claimed universal partition rule is false
(indeed the submitted shares [2, 2, 2, 2] cover only 8 of the 10 pages). -/
theorem partition_rule_counterexample :
    PAGES_PER_CORE 10 4 = 2 ∧
    PAGES_FOR_FINAL_CORE 10 4 = some 2 ∧
    coreAssignment 10 4 = some [2, 2, 2, 2] ∧
    10 - (4 - 1) * PAGES_PER_CORE 10 4 = 4 ∧
    (2 : Nat) ≠ 4 := by
  decide

/-- C9: the final-core computation takes `N mod floor(N/C)`; whenever
`N < C` the divisor `floor(N/C)` is zero, so `main` dies of the modelled
`ZeroDivisionError` (`coreAssignment = none`) before any page count is
submitted to the pool; and whenever `0 < C ≤ N` the partition computation
returns normally. -/
theorem partition_unsafe_below_core_count (N C : Nat) :
    (N < C → PAGES_PER_CORE N C = 0 ∧ coreAssignment N C = none)
    ∧ (0 < C → C ≤ N → (coreAssignment N C).isSome = true) := by
  constructor
  · intro h
    have h0 : N / C = 0 := Nat.div_eq_of_lt h
    refine ⟨h0, ?_⟩
    unfold coreAssignment PAGES_FOR_FINAL_CORE PAGES_PER_CORE
    rw [if_pos h0]
  · intro hC hCN
    have hq : 0 < N / C := Nat.div_pos hCN hC
    rw [coreAssignment_eq N C _ (PAGES_FOR_FINAL_CORE_of_pos N C hq.ne')]
    rfl

/-- C9 witness: at `N = 3`, `C = 5` the partition dies of the division by
zero before any submission, while at `N = 100`, `C = 8` it succeeds. -/
theorem partition_unsafe_below_core_count_witness :
    PAGES_PER_CORE 3 5 = 0 ∧ coreAssignment 3 5 = none ∧
    (coreAssignment 100 8).isSome = true :=
  ⟨((partition_unsafe_below_core_count 3 5).1 (by decide)).1,
   ((partition_unsafe_below_core_count 3 5).1 (by decide)).2,
   (partition_unsafe_below_core_count 100 8).2 (by decide) (by decide)⟩

/-- C2: the unit whose response has status ≥ 400 (429 included) raises
the status error, aborting the batch; no value is written for that unit —
the logged values are exactly those of the earlier, successful units —
and a batch whose responses all have status < 400 raises no such error. -/
theorem http_status_gate (pre post : List Response) (bad : Response) (s : FileState)
    (hpre : ∀ r ∈ pre, r.status ≤ 399) (hbad : 400 ≤ bad.status) :
    get_and_scrape_pages (pre ++ bad :: post) s =
      ({ content := s.content ++ joinTitles pre,
         values := s.values ++ pre.map Response.title }, some bad.status)
    ∧ ∀ rs t, (∀ r ∈ rs, r.status ≤ 399) → (get_and_scrape_pages rs t).2 = none := by
  refine ⟨scrape_fail pre bad post s hpre (by omega), ?_⟩
  intro rs t h
  rw [scrape_ok rs t h]

/-- C2 witness: a concrete batch whose second response is a
429 Too Many Requests aborts with that status, writing only the first
unit's value. -/
theorem http_status_gate_witness :
    get_and_scrape_pages [Response.mk 200 "Alpha", Response.mk 429 "Beta"] (FileState.mk "" []) =
      ({ content := "" ++ joinTitles [Response.mk 200 "Alpha"],
         values := [] ++ [Response.mk 200 "Alpha"].map Response.title }, some 429) :=
  (http_status_gate [Response.mk 200 "Alpha"] [] (Response.mk 429 "Beta")
    (FileState.mk "" []) (by decide) (by decide)).1

/-- C3 (amended): a batch over N responses that all pass the status check
completes normally and appends exactly N extracted values — one per unit,
namely the titles in order — and every appended value is non-empty
provided every extracted title is non-empty; the loop itself performs no
emptiness check (see the counterexample). -/
theorem batch_writes_n_values (rs : List Response) (s : FileState)
    (hok : ∀ r ∈ rs, r.status ≤ 399) (hne : ∀ r ∈ rs, r.title ≠ "") :
    (get_and_scrape_pages rs s).2 = none
    ∧ (get_and_scrape_pages rs s).1.values = s.values ++ rs.map Response.title
    ∧ (get_and_scrape_pages rs s).1.values.length = s.values.length + rs.length
    ∧ ∀ t ∈ (get_and_scrape_pages rs s).1.values, t ∈ s.values ∨ t ≠ "" := by
  rw [scrape_ok rs s hok]
  refine ⟨rfl, rfl, by simp, ?_⟩
  intro t ht
  rcases List.mem_append.mp ht with h | h
  · exact Or.inl h
  · right
    rcases List.mem_map.mp h with ⟨r, hr, rfl⟩
    exact hne r hr

/-- C3 witness: a successful two-unit batch from an empty file logs
exactly the two extracted titles, both non-empty. -/
theorem batch_writes_n_values_witness :
    (get_and_scrape_pages [Response.mk 200 "Alpha", Response.mk 301 "Beta"]
        (FileState.mk "" [])).2 = none
    ∧ (get_and_scrape_pages [Response.mk 200 "Alpha", Response.mk 301 "Beta"]
        (FileState.mk "" [])).1.values
      = (FileState.mk "" []).values
          ++ [Response.mk 200 "Alpha", Response.mk 301 "Beta"].map Response.title
    ∧ (get_and_scrape_pages [Response.mk 200 "Alpha", Response.mk 301 "Beta"]
        (FileState.mk "" [])).1.values.length
      = (FileState.mk "" []).values.length
          + [Response.mk 200 "Alpha", Response.mk 301 "Beta"].length
    ∧ ∀ t ∈ (get_and_scrape_pages [Response.mk 200 "Alpha", Response.mk 301 "Beta"]
        (FileState.mk "" [])).1.values, t ∈ (FileState.mk "" []).values ∨ t ≠ "" :=
  batch_writes_n_values [Response.mk 200 "Alpha", Response.mk 301 "Beta"]
    (FileState.mk "" []) (by decide) (by decide)

/-- C3 counterexample: a batch whose only response has status 200 but an
empty extracted title completes successfully yet appends the empty string
as its value: the claimed "each non-empty" is not enforced by the code. -/
theorem batch_values_counterexample :
    (get_and_scrape_pages [Response.mk 200 ""] (FileState.mk "" [])).2 = none
    ∧ (get_and_scrape_pages [Response.mk 200 ""] (FileState.mk "" [])).1.values = [""]
    ∧ ¬ (∀ t ∈ (get_and_scrape_pages [Response.mk 200 ""]
          (FileState.mk "" [])).1.values, t ≠ "") := by
  decide

/-- C4 (amended): one successful pass of the scrape loop appends its
tab-separated values followed by exactly one newline: starting from a
newline-free file, with titles containing no newline, the resulting
content holds exactly one newline character, as its final character.
(The claimed "one newline total regardless of concurrency mode" fails for
process-split runs, where each process appends its own terminating
newline — see the counterexample.) -/
theorem trailing_newline_single_run (rs : List Response) (s : FileState)
    (hok : ∀ r ∈ rs, r.status ≤ 399)
    (hnl : ∀ r ∈ rs, countNewlines r.title = 0)
    (hs : countNewlines s.content = 0) :
    (get_and_scrape_pages rs s).2 = none
    ∧ countNewlines (get_and_scrape_pages rs s).1.content = 1
    ∧ (get_and_scrape_pages rs s).1.content.data.getLast? = some '\n' := by
  rw [scrape_ok rs s hok]
  have hd : ("\n" : String).data = ['\n'] := rfl
  refine ⟨rfl, ?_, ?_⟩
  · show countNewlines (s.content ++ (joinTitles rs ++ "\n")) = 1
    rw [countNewlines_append, countNewlines_append, hs,
      countNewlines_joinTitles rs hnl]
    rfl
  · show (s.content ++ (joinTitles rs ++ "\n")).data.getLast? = some '\n'
    rw [String.data_append, String.data_append, hd, ← List.append_assoc]
    exact List.getLast?_concat _

/-- C4 witness: a successful one-unit run from an empty file yields
content with exactly one newline, at the end. -/
theorem trailing_newline_single_run_witness :
    (get_and_scrape_pages [Response.mk 200 "Alpha"] (FileState.mk "" [])).2 = none
    ∧ countNewlines (get_and_scrape_pages [Response.mk 200 "Alpha"]
        (FileState.mk "" [])).1.content = 1
    ∧ (get_and_scrape_pages [Response.mk 200 "Alpha"]
        (FileState.mk "" [])).1.content.data.getLast? = some '\n' :=
  trailing_newline_single_run [Response.mk 200 "Alpha"] (FileState.mk "" [])
    (by decide) (by decide) (by decide)

/-- C4 counterexample: two processes of a process-split run each execute
the scrape loop against the shared file; even when their appends happen
to serialize completely, the resulting shared content holds two newline
characters, not the claimed single newline following all the values. -/
theorem trailing_newline_counterexample :
    (get_and_scrape_pages [Response.mk 200 "A"] (FileState.mk "" [])).2 = none
    ∧ (get_and_scrape_pages [Response.mk 200 "B"]
        (get_and_scrape_pages [Response.mk 200 "A"] (FileState.mk "" [])).1).2 = none
    ∧ countNewlines (get_and_scrape_pages [Response.mk 200 "B"]
        (get_and_scrape_pages [Response.mk 200 "A"] (FileState.mk "" [])).1).1.content = 2 := by
  decide

/-- C6: a fatal status error partway through a batch aborts it at once:
the result does not depend on the units that would have followed (no
retry, nothing further attempted), the file still begins with everything
previously on disk extended only by the completed units' writes (no
rollback or truncation), and the completed units' values remain logged. -/
theorem abort_no_retry_no_rollback (pre post : List Response) (bad : Response)
    (s : FileState) (hpre : ∀ r ∈ pre, r.status ≤ 399) (hbad : 399 < bad.status) :
    (get_and_scrape_pages (pre ++ bad :: post) s).2 = some bad.status
    ∧ get_and_scrape_pages (pre ++ bad :: post) s = get_and_scrape_pages (pre ++ [bad]) s
    ∧ (get_and_scrape_pages (pre ++ bad :: post) s).1.content = s.content ++ joinTitles pre
    ∧ (get_and_scrape_pages (pre ++ bad :: post) s).1.values
        = s.values ++ pre.map Response.title := by
  have h1 := scrape_fail pre bad post s hpre hbad
  have h2 := scrape_fail pre bad [] s hpre hbad
  rw [h1, h2]
  exact ⟨rfl, rfl, rfl, rfl⟩

/-- C6 witness: a concrete batch failing on its second unit keeps the
prior file content and the first unit's value on disk, and its outcome
ignores the unit that would have followed. -/
theorem abort_no_retry_no_rollback_witness :
    (get_and_scrape_pages ([Response.mk 200 "Alpha"]
        ++ Response.mk 500 "Beta" :: [Response.mk 200 "Gamma"])
        (FileState.mk "prior\t" ["prior"])).2 = some 500
    ∧ get_and_scrape_pages ([Response.mk 200 "Alpha"]
        ++ Response.mk 500 "Beta" :: [Response.mk 200 "Gamma"])
        (FileState.mk "prior\t" ["prior"])
      = get_and_scrape_pages ([Response.mk 200 "Alpha"] ++ [Response.mk 500 "Beta"])
        (FileState.mk "prior\t" ["prior"])
    ∧ (get_and_scrape_pages ([Response.mk 200 "Alpha"]
        ++ Response.mk 500 "Beta" :: [Response.mk 200 "Gamma"])
        (FileState.mk "prior\t" ["prior"])).1.content
      = (FileState.mk "prior\t" ["prior"]).content ++ joinTitles [Response.mk 200 "Alpha"]
    ∧ (get_and_scrape_pages ([Response.mk 200 "Alpha"]
        ++ Response.mk 500 "Beta" :: [Response.mk 200 "Gamma"])
        (FileState.mk "prior\t" ["prior"])).1.values
      = (FileState.mk "prior\t" ["prior"]).values
          ++ [Response.mk 200 "Alpha"].map Response.title :=
  abort_no_retry_no_rollback [Response.mk 200 "Alpha"] [Response.mk 200 "Gamma"]
    (Response.mk 500 "Beta") (FileState.mk "prior\t" ["prior"]) (by decide) (by decide)

/-- C7: the cooperative (asyncio) scrape loop and the sequential scrape
loop, run over the same deterministic response sequence from the same
file state, return identical results — in particular they write the same
values, so their sets of output values coincide. -/
theorem asyncio_matches_sync (rs : List Response) (s : FileState) :
    asyncio_get_and_scrape_pages rs s = get_and_scrape_pages rs s
    ∧ (asyncio_get_and_scrape_pages rs s).1.values
        = (get_and_scrape_pages rs s).1.values := by
  have h : ∀ (l : List Response) (t : FileState),
      asyncio_get_and_scrape_pages l t = get_and_scrape_pages l t := by
    intro l
    induction l with
    | nil => intro t; rfl
    | cons r rest ih =>
      intro t
      simp only [asyncio_get_and_scrape_pages, get_and_scrape_pages]
      split
      · rfl
      · exact ih _
  exact ⟨h rs s, by rw [h rs s]⟩

/-- C5: calling the greeting unit with the empty string raises the
distinct "empty value" error (`ValueError`); calling it with any
non-string value — the integer `19`, the set and the list used by the
repository's tests included — raises the distinct "wrong type" error
(`TypeError`); the two kinds are distinct constructors; and in both error
cases the effect trace is empty: nothing is printed and no sleep is
awaited before the raise. -/
theorem say_hello_validation :
    say_hello (PyValue.pyStr "")
      = ([], some (HelloError.valueError "\"name\" cannot be empty"))
    ∧ (∀ v : PyValue, isStr v = false →
        say_hello v = ([], some (HelloError.typeError "\"name\" must be a string")))
    ∧ isStr (PyValue.pyInt 19) = false
    ∧ isStr (PyValue.pySet ["name", "Diane"]) = false
    ∧ isStr (PyValue.pyList []) = false
    ∧ ∀ m m' : String, HelloError.typeError m ≠ HelloError.valueError m' := by
  refine ⟨rfl, ?_, rfl, rfl, rfl, ?_⟩
  · intro v hv
    simp [say_hello, hv]
  · intro m m' heq
    exact HelloError.noConfusion heq

/-- C5 witness: the integer argument `19` from the tests yields the
"wrong type" error with an empty effect trace. -/
theorem say_hello_validation_witness :
    say_hello (PyValue.pyInt 19)
      = ([], some (HelloError.typeError "\"name\" must be a string")) :=
  say_hello_validation.2.1 (PyValue.pyInt 19) rfl

/-- C10: the type check precedes the emptiness check: every non-string
argument — the empty list and the set included — yields the "wrong type"
error and never the "empty value" error, and the "empty value" error is
raised exactly when the argument is the empty string. -/
theorem say_hello_type_check_first :
    (∀ v : PyValue, isStr v = false →
      say_hello v = ([], some (HelloError.typeError "\"name\" must be a string")))
    ∧ ∀ (v : PyValue) (m : String),
        (say_hello v).2 = some (HelloError.valueError m) → v = PyValue.pyStr "" := by
  constructor
  · intro v hv
    simp [say_hello, hv]
  · intro v m hm
    cases v with
    | pyStr s =>
      by_cases hs : s = ""
      · rw [hs]
      · simp [say_hello, isStr, pyEqEmptyStr, hs] at hm
    | pyInt n => simp [say_hello, isStr] at hm
    | pySet e => simp [say_hello, isStr] at hm
    | pyList e => simp [say_hello, isStr] at hm

/-- C10 witness: the empty list — an empty container that is not a
string — yields the "wrong type" error, not the "empty value" error. -/
theorem say_hello_type_check_first_witness :
    say_hello (PyValue.pyList [])
      = ([], some (HelloError.typeError "\"name\" must be a string")) :=
  say_hello_type_check_first.1 (PyValue.pyList []) rfl

/-- C8: the thread-pool driver submits one unit per element of `pow_list`
(16 units) to a pool whose size defaults to the number of available
hardware threads, and the caller obtains the results — `pow(i, i)` for
every submitted unit, none missing — only after the with-block wait has
finished them all. -/
theorem thread_pool_runs_all (hardwareThreads : Nat) :
    (threadsMain hardwareThreads).1 = defaultMaxWorkers hardwareThreads
    ∧ (threadsMain hardwareThreads).2 = pow_list.map (fun i => i ^ i)
    ∧ (threadsMain hardwareThreads).2.length = pow_list.length := by
  have h := foldl_submit pow_list
    { max_workers := defaultMaxWorkers hardwareThreads, pending := [] }
  refine ⟨?_, ?_, ?_⟩
  · simp only [threadsMain]
    rw [h]
  · simp only [threadsMain]
    rw [h]
    simp [shutdownWait, List.map_map, Function.comp]
  · simp only [threadsMain]
    rw [h]
    simp [shutdownWait]

end ConcPar
